import Mathlib

/-!
Verification development for the `ci_analyst` repository.

The TypeScript web application under `apps/web` is embedded directly
(mock agent, mock stream builder, NDJSON stream parser, API route
handlers, server environment resolution).  The Python orchestrator
service (`apps/orchestrator`) is not part of the source tree available
here, so its stages (SQL guard, planner heuristic, concurrent SQL
execution, validation, orchestration) are modelled from the design
specification; each such definition carries a doc comment starting
with `Modelled from the spec:`.

JavaScript strings are modelled as `String` for data and as `List Char`
for character-level algorithms; JavaScript numbers are modelled as `Rat`.
-/

namespace CiAnalyst

/-- JavaScript number model: exact rationals stand in for IEEE doubles.
All numeric literals appearing in the repository's data are small
decimal fractions, which rationals represent exactly. -/
abbrev JsNum := Rat

/-- One cell of a tabular row: `string | number | boolean | null`
(`DataCell` in `apps/web/src/lib/types.ts`). -/
inductive DataCell where
  | str (s : String)
  | num (q : JsNum)
  | bool (b : Bool)
  | null
  deriving DecidableEq, Repr

/-- A JS object row `Record<string, DataCell>`: an insertion-ordered
association list, matching JS string-key ordering semantics. -/
abbrev JsRow := List (String × DataCell)

/-! ## Character-level string helpers (JS semantics) -/

/-- JS whitespace test used by `String.prototype.trim` (restricted to
the ASCII whitespace actually occurring in this code base). -/
def jsIsSpace (c : Char) : Bool :=
  c = ' ' ∨ c = '\t' ∨ c = '\n' ∨ c = '\r'

/-- `String.prototype.trim` on a character list. -/
def trimChars (l : List Char) : List Char :=
  ((l.dropWhile jsIsSpace).reverse.dropWhile jsIsSpace).reverse

/-- `String.prototype.split` with a single-character separator:
`"a,b".split(",") = ["a","b"]`, `"".split(",") = [""]`. -/
def jsSplit (sep : Char) : List Char → List (List Char)
  | [] => [[]]
  | c :: cs =>
    if c = sep then [] :: jsSplit sep cs
    else
      match jsSplit sep cs with
      | [] => [[c]]
      | l :: ls => (c :: l) :: ls

/-- `String.prototype.includes` on character lists. -/
def jsIncludes (s sub : List Char) : Bool :=
  decide (sub <:+: s)

/-- `String.prototype.toLowerCase` (ASCII). -/
def jsLower (s : List Char) : List Char :=
  s.map Char.toLower

/-- `Math.round` (half rounds up, i.e. toward positive infinity). -/
def jsRound (q : JsNum) : Int :=
  ⌊q + 1 / 2⌋

/-- `Number(x.toFixed(d))`: round to `d` decimal places, ties away
from zero for the nonnegative values occurring here. -/
def jsToFixed (d : Nat) (q : JsNum) : JsNum :=
  (jsRound (q * (10 : JsNum) ^ d) : JsNum) / (10 : JsNum) ^ d

/-! ## Shared web types (`apps/web/src/lib/types.ts`)

Only the fields the mock agent actually constructs are embedded; the
remaining interface fields are optional in the source and absent from
every value the embedded code builds. -/

/-- `TraceStatus` union. -/
inductive TraceStatus where
  | done
  | running
  | blocked
  deriving DecidableEq, Repr

/-- `TraceStep` interface. -/
structure TraceStep where
  id : String
  title : String
  summary : String
  status : TraceStatus
  sql : Option String := none
  qualityChecks : Option (List String) := none
  deriving DecidableEq, Repr

/-- `MetricPoint` interface (`unit` kept as its literal string). -/
structure MetricPoint where
  label : String
  value : JsNum
  delta : JsNum
  unit : String
  deriving DecidableEq, Repr

/-- `EvidenceRow` interface. -/
structure EvidenceRow where
  segment : String
  prior : JsNum
  current : JsNum
  changeBps : JsNum
  contribution : JsNum
  deriving DecidableEq, Repr

/-- `Insight` interface (`importance` kept as its literal string). -/
structure Insight where
  id : String
  title : String
  detail : String
  importance : String
  deriving DecidableEq, Repr

/-- `DataTable` interface. -/
structure DataTable where
  id : String
  name : String
  columns : List String
  rows : List JsRow
  rowCount : Nat
  description : Option String := none
  sourceSql : Option String := none
  deriving DecidableEq, Repr

/-- `AgentResponse` interface (confidence as its literal string). -/
structure AgentResponse where
  answer : String
  confidence : String
  whyItMatters : String
  metrics : List MetricPoint
  evidence : List EvidenceRow
  insights : List Insight
  suggestedQuestions : List String
  assumptions : List String
  trace : List TraceStep
  dataTables : List DataTable
  deriving DecidableEq, Repr

/-- `ChatStreamEvent` union; `phase` is the optional field of the
`response` variant. -/
inductive ChatStreamEvent where
  | status (message : String)
  | answer_delta (delta : String)
  | response (phase : Option String) (response : AgentResponse)
  | done
  | error (message : String)
  deriving DecidableEq, Repr

/-! ## Mock agent (`apps/web/src/lib/mock-agent.ts`) -/

def DATA_FROM : String := "2025-01-01"
def DATA_THROUGH : String := "2025-12-31"

/-- `StateBase` row type of the mock dataset. -/
structure StateBase where
  state : String
  spendUsdM : JsNum
  transactionsK : JsNum
  cnpSharePct : JsNum
  deriving Repr

/-- The 30-state mock dataset `stateBase`. -/
def stateBase : List StateBase :=
  [ ⟨"CA", 236.4, 6210, 46.8⟩, ⟨"TX", 212.7, 5660, 43.1⟩,
    ⟨"FL", 188.9, 4890, 41.7⟩, ⟨"NY", 181.2, 4720, 48.9⟩,
    ⟨"GA", 149.5, 3890, 39.8⟩, ⟨"IL", 142.8, 3710, 42.6⟩,
    ⟨"PA", 136.4, 3490, 40.4⟩, ⟨"NC", 129.8, 3360, 38.6⟩,
    ⟨"OH", 121.1, 3190, 37.9⟩, ⟨"VA", 116.2, 3050, 41.2⟩,
    ⟨"AZ", 109.7, 2810, 40.8⟩, ⟨"NJ", 106.8, 2740, 45.7⟩,
    ⟨"WA", 98.5, 2520, 47.1⟩, ⟨"MA", 94.2, 2390, 46.5⟩,
    ⟨"TN", 88.9, 2290, 37.6⟩, ⟨"IN", 84.6, 2200, 36.8⟩,
    ⟨"MO", 79.8, 2080, 35.9⟩, ⟨"MD", 76.5, 1990, 43.8⟩,
    ⟨"CO", 73.4, 1920, 44.1⟩, ⟨"MN", 69.3, 1820, 39.2⟩,
    ⟨"WI", 66.7, 1750, 35.3⟩, ⟨"SC", 63.8, 1690, 36.6⟩,
    ⟨"AL", 60.4, 1600, 34.7⟩, ⟨"LA", 58.9, 1550, 35.5⟩,
    ⟨"KY", 57.2, 1500, 34.2⟩, ⟨"OR", 55.6, 1450, 42.7⟩,
    ⟨"OK", 54.1, 1410, 33.8⟩, ⟨"CT", 53.5, 1390, 43.4⟩,
    ⟨"UT", 52.8, 1360, 38.9⟩, ⟨"NV", 51.9, 1340, 44.5⟩ ]

/-- `queryProfile`'s result union. -/
inductive QueryProfile where
  | state_sales
  | q4_yoy
  | store_performance
  | overview
  deriving DecidableEq, Repr

/-- `queryProfile(query)`: keyword routing of the mock agent. -/
def queryProfile (query : String) : QueryProfile :=
  let lowered := jsLower query.toList
  if jsIncludes lowered "top".toList ∧ jsIncludes lowered "bottom".toList ∧
      (jsIncludes lowered "store".toList ∨ jsIncludes lowered "location".toList ∨
        jsIncludes lowered "td_id".toList) then
    .store_performance
  else if jsIncludes lowered "q4".toList ∨
      jsIncludes lowered "same period last year".toList ∨
      jsIncludes lowered "year over year".toList ∨
      jsIncludes lowered "yoy".toList ∨
      jsIncludes lowered "previous year".toList then
    .q4_yoy
  else if jsIncludes lowered "state".toList ∧
      (jsIncludes lowered "sales".toList ∨ jsIncludes lowered "spend".toList ∨
        jsIncludes lowered "transaction".toList) then
    .state_sales
  else
    .overview

/-- `stateRows()`. -/
def stateRows : List JsRow :=
  stateBase.map fun item =>
    [ ("transaction_state", .str item.state),
      ("spend_usd_m", .num item.spendUsdM),
      ("transactions_k", .num item.transactionsK),
      ("avg_sale_amount_usd", .num (jsToFixed 2 (item.spendUsdM * 1000 / item.transactionsK))),
      ("cp_spend_share_pct", .num (jsToFixed 1 (100 - item.cnpSharePct))),
      ("cnp_spend_share_pct", .num (jsToFixed 1 item.cnpSharePct)),
      ("data_from", .str DATA_FROM),
      ("data_through", .str DATA_THROUGH) ]

/-- `stateChannelRows(limitStates)`: CP and CNP rows per leading state. -/
def stateChannelRows (limitStates : Nat) : List JsRow :=
  (stateBase.take limitStates).flatMap fun item =>
    let cpShare := 100 - item.cnpSharePct
    let cpSpend := jsToFixed 1 (item.spendUsdM * cpShare * 0.01)
    let cnpSpend := jsToFixed 1 (item.spendUsdM * item.cnpSharePct * 0.01)
    let cpTransactions : JsNum := (jsRound (item.transactionsK * cpShare * 0.01) : Int)
    let cnpTransactions : JsNum := (jsRound (item.transactionsK * item.cnpSharePct * 0.01) : Int)
    [ [ ("transaction_state", .str item.state),
        ("channel", .str "CP"),
        ("spend_usd_m", .num cpSpend),
        ("transactions_k", .num cpTransactions),
        ("avg_sale_amount_usd", .num (jsToFixed 2 (cpSpend * 1000 / max cpTransactions 1))),
        ("data_from", .str DATA_FROM),
        ("data_through", .str DATA_THROUGH) ],
      [ ("transaction_state", .str item.state),
        ("channel", .str "CNP"),
        ("spend_usd_m", .num cnpSpend),
        ("transactions_k", .num cnpTransactions),
        ("avg_sale_amount_usd", .num (jsToFixed 2 (cnpSpend * 1000 / max cnpTransactions 1))),
        ("data_from", .str DATA_FROM),
        ("data_through", .str DATA_THROUGH) ] ]

/-- One literal row of `storeRows()`. -/
def storeRow (rankGroup tdId city st : String)
    (spend25 : JsNum) (tx25 : JsNum) (rep25 : JsNum) (spend24 : JsNum)
    (rep24 : JsNum) : JsRow :=
  [ ("rank_group", .str rankGroup),
    ("td_id", .str tdId),
    ("transaction_city", .str city),
    ("transaction_state", .str st),
    ("spend_2025_usd_m", .num spend25),
    ("transactions_2025_k", .num tx25),
    ("repeat_spend_share_2025_pct", .num rep25),
    ("spend_2024_usd_m", .num spend24),
    ("repeat_spend_share_2024_pct", .num rep24),
    ("portfolio_avg_spend_2025_usd_m", .num 18.6) ]

/-- `storeRows()`. -/
def storeRows : List JsRow :=
  [ storeRow "Top" "6182655" "Houston" "TX" 42.1 1110 64.3 35.8 59.9,
    storeRow "Top" "6181442" "Miami" "FL" 39.4 1030 62.8 33.7 58.0,
    storeRow "Top" "6183118" "Los Angeles" "CA" 37.8 980 63.7 32.4 58.8,
    storeRow "Top" "6182027" "Atlanta" "GA" 35.1 930 61.9 30.9 57.4,
    storeRow "Top" "6182780" "Phoenix" "AZ" 33.8 880 60.7 29.5 56.1,
    storeRow "Bottom" "6184993" "Baton Rouge" "LA" 6.4 170 45.1 7.0 47.0,
    storeRow "Bottom" "6185120" "Knoxville" "TN" 6.2 162 44.4 6.9 46.2,
    storeRow "Bottom" "6185308" "Cleveland" "OH" 6.0 158 43.5 6.7 45.8,
    storeRow "Bottom" "6185442" "Oklahoma City" "OK" 5.9 153 42.8 6.5 44.9,
    storeRow "Bottom" "6185581" "Las Vegas" "NV" 5.7 149 42.1 6.3 44.1 ]

/-- `query.slice(0, 100)` (all queries here are ASCII). -/
def jsSlice100 (query : String) : String :=
  String.mk (query.toList.take 100)

/-- `buildTrace(query, sql)`. -/
def buildTrace (query sql : String) : List TraceStep :=
  [ { id := "t1", title := "Resolve intent and date context",
      summary := "Mapped request to semantic model entities and resolved latest RESP_DATE context for \"" ++ jsSlice100 query ++ "\".",
      status := .done,
      qualityChecks := some ["Date context resolved", "Semantic model entities matched"] },
    { id := "t2", title := "Generate governed SQL",
      summary := "Built allowlisted SQL against customer-insights tables with read-only constraints.",
      status := .done, sql := some sql,
      qualityChecks := some ["Allowlist guard passed", "Read-only SQL guard passed"] },
    { id := "t3", title := "Validate and rank insights",
      summary := "Reconciled aggregates and prioritized findings by impact and decision relevance.",
      status := .done,
      qualityChecks := some ["Totals reconcile", "No restricted columns accessed"] } ]

/-- `tableFromRows(id, name, rows, sourceSql, description)`. -/
def tableFromRows (id name : String) (rows : List JsRow)
    (sourceSql description : String) : DataTable :=
  { id, name,
    columns := match rows with
      | first :: _ => first.map Prod.fst
      | [] => [],
    rows, rowCount := rows.length,
    sourceSql := some sourceSql, description := some description }

/-- `tableFromEvidence(id, name, rows, sourceSql)`. -/
def tableFromEvidence (id name : String) (rows : List EvidenceRow)
    (sourceSql : String) : DataTable :=
  { id, name,
    columns := ["segment", "prior", "current", "changeBps", "contribution"],
    rows := rows.map fun row =>
      [ ("segment", .str row.segment), ("prior", .num row.prior),
        ("current", .num row.current), ("changeBps", .num row.changeBps),
        ("contribution", .num row.contribution) ],
    rowCount := rows.length,
    description := some "Segment-level share decomposition used to generate driver analysis.",
    sourceSql := some sourceSql }

/-- `overviewMetrics()`. -/
def overviewMetrics : List MetricPoint :=
  [ ⟨"Total Spend", 2.83, 0.27, "usd"⟩,
    ⟨"Total Transactions", 74200000, 5300000, "count"⟩,
    ⟨"Repeat Spend Share", 54.8, 1.1, "pct"⟩ ]

/-- The `state_sales` branch of `getMockAgentResponse`. -/
def stateSalesResponse (userQuery : String) : AgentResponse :=
  let evidence : List EvidenceRow :=
    [ ⟨"California spend share", 19.8, 20.5, 70, 0.22⟩,
      ⟨"Texas spend share", 17.5, 18.4, 90, 0.19⟩,
      ⟨"Florida spend share", 15.2, 15.8, 60, 0.14⟩,
      ⟨"CNP channel share", 37.4, 39.8, 240, 0.27⟩ ]
  let sql :=
    "SELECT TRANSACTION_STATE, SUM(SPEND) AS spend_usd_m, SUM(TRANSACTIONS) AS transactions_k, MIN(RESP_DATE) AS data_from, MAX(RESP_DATE) AS data_through FROM cia_sales_insights_cortex GROUP BY TRANSACTION_STATE ORDER BY spend_usd_m DESC;"
  { answer := "Sales are highest in CA, TX, FL, NY, and GA. Across the latest window, CNP share increased to 39.8%, with CA and TX contributing the largest dollar movement.",
    confidence := "high",
    whyItMatters := "State concentration and channel mix explain most variance, so growth and risk interventions can be targeted to a small set of geographies.",
    metrics :=
      [ ⟨"Total Spend", 2.83, 0.27, "usd"⟩,
        ⟨"Total Transactions", 74200000, 5300000, "count"⟩,
        ⟨"CNP Spend Share", 39.8, 2.4, "pct"⟩ ],
    evidence,
    insights :=
      [ ⟨"i1", "Top 5 states drive most movement",
          "CA, TX, FL, NY, and GA account for roughly 63% of total spend.", "high"⟩,
        ⟨"i2", "CNP is growing faster than CP",
          "CNP share rose 240 bps, concentrated in high-volume coastal states.", "high"⟩,
        ⟨"i3", "Ticket size is stable",
          "Average sale amount moved modestly, indicating growth is mainly transaction-volume driven.", "medium"⟩ ],
    suggestedQuestions :=
      [ "Break out each state by CP vs CNP spend and transactions.",
        "Which states have the largest repeat customer share gains?",
        "Show weekly trend for the top 5 states in the latest quarter." ],
    assumptions :=
      [ "Latest data window uses MIN/MAX RESP_DATE from cia_sales_insights_cortex.",
        "Spend and transaction values are aggregated across consumer and commercial traffic." ],
    trace := buildTrace userQuery sql,
    dataTables :=
      [ tableFromEvidence "state_driver_breakdown" "State and Channel Driver Breakdown" evidence sql,
        tableFromRows "state_sales_2025" "Sales by State (Latest Window)" stateRows sql
          "State-level spend, transactions, ticket size, and CP/CNP shares.",
        tableFromRows "state_channel_mix" "State x Channel Mix (Top States)" (stateChannelRows 10)
          "SELECT TRANSACTION_STATE, CHANNEL, SUM(SPEND) AS spend_usd_m, SUM(TRANSACTIONS) AS transactions_k FROM cia_sales_insights_cortex GROUP BY TRANSACTION_STATE, CHANNEL;"
          "CP/CNP split for top states by spend." ] }

/-- The `q4_yoy` branch of `getMockAgentResponse`. -/
def q4YoyResponse (userQuery : String) : AgentResponse :=
  let evidence : List EvidenceRow :=
    [ ⟨"CNP share", 39.1, 41.2, 210, 0.31⟩,
      ⟨"Repeat spend share", 52.4, 54.0, 160, 0.22⟩,
      ⟨"CP share", 60.9, 58.8, -210, -0.16⟩,
      ⟨"Top 5 states share", 61.7, 63.0, 130, 0.19⟩ ]
  let sql :=
    "SELECT 'spend_usd_m' AS metric, 742.6 AS q4_2025, 656.4 AS q4_2024, 13.1 AS yoy_pct UNION ALL SELECT 'transactions_k', 21410, 19880, 7.7 UNION ALL SELECT 'avg_sale_amount_usd', 34.68, 33.02, 5.0;"
  { answer := "For Q4 2025 versus Q4 2024: sales increased from $656.4M to $742.6M (+13.1%), transactions rose from 19.88M to 21.41M (+7.7%), and average sale amount increased from $33.02 to $34.68 (+5.0%).",
    confidence := "high",
    whyItMatters := "Growth came from both volume and ticket size, while channel mix shifted toward CNP. That suggests expansion opportunity with concurrent online-risk and operations implications.",
    metrics :=
      [ ⟨"Q4 2025 Spend", 0.74, 0.09, "usd"⟩,
        ⟨"Q4 2025 Transactions", 21410000, 1530000, "count"⟩,
        ⟨"Q4 CNP Share", 41.2, 2.1, "pct"⟩ ],
    evidence,
    insights :=
      [ ⟨"i1", "YoY growth is balanced",
          "Both transactions and ticket size increased, not just one lever.", "high"⟩,
        ⟨"i2", "CNP acceleration is material",
          "CNP share gained 210 bps year-over-year, concentrated in high-volume states.", "high"⟩,
        ⟨"i3", "Repeat mix improved",
          "Repeat spend share improved by 160 bps, supporting healthier retention.", "medium"⟩ ],
    suggestedQuestions :=
      [ "Show the same Q4 YoY comparison by state and channel.",
        "Which states contributed most to average ticket growth?",
        "Split YoY performance by consumer versus commercial transactions." ],
    assumptions :=
      [ "Q4 window is interpreted as October 1 through December 31 for each year.",
        "Latest available year in mock data is anchored to RESP_DATE max of 2025-12-31." ],
    trace := buildTrace userQuery sql,
    dataTables :=
      [ tableFromEvidence "q4_yoy_driver_breakdown" "Q4 YoY Driver Breakdown" evidence sql,
        tableFromRows "q4_yoy_summary" "Q4 2025 vs Q4 2024 Summary"
          [ [ ("metric", .str "spend_usd_m"), ("q4_2025", .num 742.6), ("q4_2024", .num 656.4),
              ("yoy_pct", .num 13.1), ("yoy_abs_usd_m", .num 86.2) ],
            [ ("metric", .str "transactions_k"), ("q4_2025", .num 21410), ("q4_2024", .num 19880),
              ("yoy_pct", .num 7.7), ("yoy_abs_k", .num 1530) ],
            [ ("metric", .str "avg_sale_amount_usd"), ("q4_2025", .num 34.68), ("q4_2024", .num 33.02),
              ("yoy_pct", .num 5.0), ("yoy_abs_usd", .num 1.66) ],
            [ ("metric", .str "cp_spend_share_pct"), ("q4_2025", .num 58.8), ("q4_2024", .num 60.9),
              ("yoy_pct", .num (-3.4)), ("yoy_abs_pp", .num (-2.1)) ],
            [ ("metric", .str "cnp_spend_share_pct"), ("q4_2025", .num 41.2), ("q4_2024", .num 39.1),
              ("yoy_pct", .num 5.4), ("yoy_abs_pp", .num 2.1) ],
            [ ("metric", .str "repeat_spend_share_pct"), ("q4_2025", .num 54.0), ("q4_2024", .num 52.4),
              ("yoy_pct", .num 3.1), ("yoy_abs_pp", .num 1.6) ] ]
          sql
          "Year-over-year summary for spend, transactions, average sale amount, and channel/repeat mix.",
        tableFromRows "q4_state_channel_top" "Q4 State x Channel (Top States)" (stateChannelRows 8)
          "SELECT TRANSACTION_STATE, CHANNEL, SUM(SPEND), SUM(TRANSACTIONS) FROM cia_sales_insights_cortex WHERE RESP_DATE BETWEEN '2025-10-01' AND '2025-12-31' GROUP BY TRANSACTION_STATE, CHANNEL;"
          "State/channel detail supporting the YoY movement explanation." ] }

/-- The `store_performance` branch of `getMockAgentResponse`. -/
def storePerformanceResponse (userQuery : String) : AgentResponse :=
  let evidence : List EvidenceRow :=
    [ ⟨"Top 5 stores repeat share", 58.0, 62.7, 470, 0.48⟩,
      ⟨"Bottom 5 stores repeat share", 45.6, 43.6, -200, -0.19⟩,
      ⟨"Portfolio repeat share", 53.5, 54.8, 130, 0.12⟩,
      ⟨"Top vs bottom spend gap", 22.8, 28.4, 560, 0.27⟩ ]
  let sql :=
    "SELECT TD_ID, TRANSACTION_CITY, TRANSACTION_STATE, SUM(SPEND) AS spend_2025_usd_m, SUM(TRANSACTIONS) AS transactions_2025_k FROM cia_sales_insights_cortex WHERE RESP_DATE BETWEEN '2025-01-01' AND '2025-12-31' GROUP BY TD_ID, TRANSACTION_CITY, TRANSACTION_STATE;"
  { answer := "Top stores in 2025 outperform bottom stores and portfolio average on spend growth and repeat-customer mix. Top 5 stores average +16.6% YoY spend with 62.7% repeat share, while bottom 5 stores are -8.1% YoY with 43.6% repeat share.",
    confidence := "high",
    whyItMatters := "The spread between top and bottom stores is widening. New/repeat mix and local execution patterns are likely key levers for lift at underperforming locations.",
    metrics :=
      [ ⟨"Top Store Spend", 0.04, 0.01, "usd"⟩,
        ⟨"Bottom Store Spend", 0.01, -0.0, "usd"⟩,
        ⟨"Repeat Share Gap", 19.1, 6.7, "pct"⟩ ],
    evidence,
    insights :=
      [ ⟨"i1", "Repeat mix strongly predicts winners",
          "Top stores are materially more repeat-heavy than bottom stores in both years.", "high"⟩,
        ⟨"i2", "Bottom cohort is losing momentum",
          "Bottom stores show negative YoY spend with rising new-customer dependency.", "high"⟩,
        ⟨"i3", "Portfolio average masks dispersion",
          "Aggregate performance looks healthy, but tail underperformance is expanding.", "medium"⟩ ],
    suggestedQuestions :=
      [ "For bottom stores, break out CP vs CNP and day-of-week patterns.",
        "Which bottom stores have the largest repeat-share deterioration YoY?",
        "Compare household coverage for top and bottom stores." ],
    assumptions :=
      [ "Store performance uses TD_ID-level aggregation for calendar year 2025.",
        "Repeat/new mix is derived from repeat_spend and new_spend ratios." ],
    trace := buildTrace userQuery sql,
    dataTables :=
      [ tableFromEvidence "store_driver_breakdown" "Top vs Bottom Store Driver Breakdown" evidence sql,
        tableFromRows "store_rankings_2025" "Top and Bottom Stores (2025)" storeRows sql
          "TD_ID-level ranking with city/state context and YoY comparisons.",
        tableFromRows "store_mix_summary" "Store Mix vs Portfolio Average"
          [ [ ("segment", .str "Top 5 Stores"), ("repeat_spend_share_2025_pct", .num 62.7),
              ("new_spend_share_2025_pct", .num 37.3), ("repeat_spend_share_2024_pct", .num 58.0),
              ("spend_growth_yoy_pct", .num 16.6) ],
            [ ("segment", .str "Bottom 5 Stores"), ("repeat_spend_share_2025_pct", .num 43.6),
              ("new_spend_share_2025_pct", .num 56.4), ("repeat_spend_share_2024_pct", .num 45.6),
              ("spend_growth_yoy_pct", .num (-8.1)) ],
            [ ("segment", .str "Portfolio Average"), ("repeat_spend_share_2025_pct", .num 54.8),
              ("new_spend_share_2025_pct", .num 45.2), ("repeat_spend_share_2024_pct", .num 53.5),
              ("spend_growth_yoy_pct", .num 9.4) ] ]
          "SELECT TD_ID, SUM(REPEAT_SPEND), SUM(NEW_SPEND) FROM cia_sales_insights_cortex GROUP BY TD_ID;"
          "New vs repeat mix for top/bottom cohorts against portfolio average." ] }

/-- The final (overview) branch of `getMockAgentResponse`. -/
def overviewResponse (userQuery : String) : AgentResponse :=
  let sql :=
    "SELECT DATE_TRUNC('MONTH', RESP_DATE) AS month, SUM(SPEND) AS spend_usd_m, SUM(TRANSACTIONS) AS transactions_k FROM cia_sales_insights_cortex GROUP BY 1 ORDER BY 1;"
  { answer := "Latest-period sales and transactions are trending up, with growth concentrated in the largest states and a gradual shift toward CNP and repeat-customer contribution.",
    confidence := "medium",
    whyItMatters := "The direction is positive, but state/channel concentration should be monitored to balance growth and risk.",
    metrics := overviewMetrics,
    evidence :=
      [ ⟨"CNP channel share", 38.9, 39.8, 90, 0.24⟩,
        ⟨"Repeat spend share", 53.7, 54.8, 110, 0.19⟩,
        ⟨"Top 5 states share", 62.3, 63.0, 70, 0.15⟩ ],
    insights :=
      [ ⟨"i1", "Growth remains concentrated",
          "A handful of states explain the majority of the aggregate uplift.", "high"⟩,
        ⟨"i2", "Channel mix keeps shifting",
          "CNP penetration is climbing steadily and should inform operations planning.", "medium"⟩ ],
    suggestedQuestions :=
      [ "Show monthly trend by state for the last 12 months.",
        "Break down growth by CP vs CNP by state.",
        "How does repeat/new mix vary by store cohort?" ],
    assumptions :=
      [ "Response summarizes latest available calendar window in the mock dataset.",
        "All results use semantic-model allowlisted tables only." ],
    trace := buildTrace userQuery sql,
    dataTables :=
      [ tableFromRows "overview_monthly_trend" "Monthly Spend and Transactions"
          [ [ ("month", .str "2025-08-01"), ("spend_usd_m", .num 214.2), ("transactions_k", .num 6140) ],
            [ ("month", .str "2025-09-01"), ("spend_usd_m", .num 221.6), ("transactions_k", .num 6290) ],
            [ ("month", .str "2025-10-01"), ("spend_usd_m", .num 236.3), ("transactions_k", .num 6890) ],
            [ ("month", .str "2025-11-01"), ("spend_usd_m", .num 245.1), ("transactions_k", .num 7120) ],
            [ ("month", .str "2025-12-01"), ("spend_usd_m", .num 261.2), ("transactions_k", .num 7400) ] ]
          sql
          "High-level monthly trend across spend and transactions.",
        tableFromRows "overview_channel_mix" "Channel Mix Snapshot"
          [ [ ("channel", .str "CP"), ("spend_usd_m", .num 1703.0), ("transactions_k", .num 45420) ],
            [ ("channel", .str "CNP"), ("spend_usd_m", .num 1127.6), ("transactions_k", .num 28780) ] ]
          "SELECT CHANNEL, SUM(SPEND) AS spend_usd_m, SUM(TRANSACTIONS) AS transactions_k FROM cia_sales_insights_cortex GROUP BY CHANNEL;"
          "Current mix between card-present and card-not-present activity." ] }

/-- `getMockAgentResponse(userQuery)`: dispatch on `queryProfile`. -/
def getMockAgentResponse (userQuery : String) : AgentResponse :=
  match queryProfile userQuery with
  | .state_sales => stateSalesResponse userQuery
  | .q4_yoy => q4YoyResponse userQuery
  | .store_performance => storePerformanceResponse userQuery
  | .overview => overviewResponse userQuery

/-! ## Mock stream builder (`apps/web/src/lib/mock-stream.ts`) -/

/-- `buildMockEvents(message)`: seven status markers, a draft response,
one `answer_delta` per space-separated token of the answer, a trailing
status marker, the final response, and `done`.
`response.answer.split(".")[0]?.trim()` always produces a string since
`split` returns a non-empty array; an empty draft falls back to the
full response. -/
def buildMockEvents (message : String) : List ChatStreamEvent :=
  let response := getMockAgentResponse message
  let draftAnswer := trimChars ((jsSplit '.' response.answer.toList).headD [])
  let draftResponse :=
    if draftAnswer = [] then response
    else { response with answer := String.mk draftAnswer ++ "." }
  [ ChatStreamEvent.status "Understanding your question",
    .status "Building governed plan",
    .status "Resolving latest RESP_DATE context from semantic model",
    .status "Generating governed SQL and running checks",
    .status "Executing SQL and retrieving evidence tables",
    .status "Running numeric QA and consistency checks",
    .status "Ranking insights by impact and confidence",
    .response (some "draft") draftResponse ]
  ++ (jsSplit ' ' response.answer.toList).map
      (fun token => .answer_delta (String.mk token ++ " "))
  ++ [ .status "Finalizing response payload and audit trace",
       .response (some "final") response,
       .done ]

/-! ## NDJSON stream parser (`apps/web/src/lib/stream.ts`) -/

/-- The loop body of `parseNdjsonChunk`: parse each complete line that
is non-blank after trimming. -/
def lineEvents {E : Type} (parse : List Char → E) (ls : List (List Char)) : List E :=
  ls.filterMap fun line =>
    let trimmed := trimChars line
    if trimmed = [] then none else some (parse trimmed)

/-- `parseNdjsonChunk(chunk, carry)`: prepend the carry, split on
newlines, keep the trailing segment (`lines.pop()`) as the next carry,
and parse each non-blank complete line.  `JSON.parse` is the abstract
`parse` parameter: the chunking logic never inspects the payloads. -/
def parseNdjsonChunk {E : Type} (parse : List Char → E) (chunk carry : List Char) :
    List E × List Char :=
  let lines := jsSplit '\n' (carry ++ chunk)
  (lineEvents parse lines.dropLast, lines.getLastD [])

/-- Folding `parseNdjsonChunk` over successive chunks while threading
the returned carry (the loop of `readNdjsonStream`). -/
def foldNdjsonChunks {E : Type} (parse : List Char → E) :
    List (List Char) → List Char → List E × List Char
  | [], carry => ([], carry)
  | chunk :: rest, carry =>
    let r := parseNdjsonChunk parse chunk carry
    let r2 := foldNdjsonChunks parse rest r.2
    (r.1 ++ r2.1, r2.2)

/-! ## Server environment (`apps/web/src/lib/server-env.ts`) -/

/-- JS value model for property access on the `serverEnv` object. -/
inductive JsValue where
  | undefined
  | str (s : String)
  | num (q : JsNum)
  deriving DecidableEq, Repr

/-- JavaScript truthiness of the values above. -/
def jsTruthy : JsValue → Bool
  | .undefined => false
  | .str s => decide (s ≠ "")
  | .num q => decide (q ≠ 0)

/-- The fields the `serverEnv` object literal defines. -/
structure ServerEnv where
  ORCHESTRATOR_URL : Option String
  WEB_BACKEND_MODE : String
  WEB_MOCK_STATUS_DELAY_MS : JsNum
  WEB_MOCK_TOKEN_DELAY_MS : JsNum
  WEB_MOCK_RESPONSE_DELAY_MS : JsNum

/-- `parseBoolean(value, fallback)`: an unset or empty variable yields
the fallback, otherwise membership in `["1","true","yes","on"]`
(case-insensitive). -/
def parseBoolean (value : Option String) (fallback : Bool) : Bool :=
  match value with
  | none => fallback
  | some v =>
    if v = "" then fallback
    else ["1", "true", "yes", "on"].contains (String.mk (jsLower v.toList))

/-- `parseWebBackendMode(value)`. -/
def parseWebBackendMode (value : Option String) : Option String :=
  match value with
  | none => none
  | some v =>
    if v = "" then none
    else
      let normalized := String.mk (jsLower (trimChars v.toList))
      if normalized = "web_mock" ∨ normalized = "orchestrator" then some normalized
      else none

/-- Digit-string to `Nat` (`none` when any character is not a digit or
the string is empty). -/
def digitsToNat (l : List Char) : Option Nat :=
  if l = [] then none
  else if l.all Char.isDigit then
    some (l.foldl (fun n c => n * 10 + (c.toNat - 48)) 0)
  else none

/-- Model of `Number(value)` restricted to plain decimal literals
(optional sign, digits, optional fraction); every other input is NaN
(`none`).  The environment files only ever hold such literals. -/
def jsNumberOfString (s : List Char) : Option JsNum :=
  let t := trimChars s
  let signBody : Int × List Char :=
    match t with
    | '-' :: rest => (-1, rest)
    | '+' :: rest => (1, rest)
    | _ => (1, t)
  match jsSplit '.' signBody.2 with
  | [intPart] => (digitsToNat intPart).map fun n => ((signBody.1 * n : Int) : JsNum)
  | [intPart, fracPart] =>
    match digitsToNat intPart, digitsToNat fracPart with
    | some n, some f =>
      some ((signBody.1 : JsNum) * ((n : JsNum) + (f : JsNum) / (10 : JsNum) ^ fracPart.length))
    | _, _ => none
  | _ => none

/-- `parseNumber(value, fallback)`. -/
def parseNumber (value : Option String) (fallback : JsNum) : JsNum :=
  match value with
  | none => fallback
  | some v => if v = "" then fallback else (jsNumberOfString v.toList).getD fallback

/-- The `serverEnv` construction from the process environment: the
backend mode is `WEB_BACKEND_MODE` when valid, else derived from the
legacy `WEB_USE_LOCAL_MOCK` flag (default `true` → `"web_mock"`).
`WEB_USE_LOCAL_MOCK` itself is *not* a field of the result. -/
def mkServerEnv (procEnv : String → Option String) : ServerEnv :=
  let parsedMode := parseWebBackendMode (procEnv "WEB_BACKEND_MODE")
  let legacyLocalMock := parseBoolean (procEnv "WEB_USE_LOCAL_MOCK") true
  let resolvedMode := parsedMode.getD (if legacyLocalMock then "web_mock" else "orchestrator")
  { ORCHESTRATOR_URL := procEnv "ORCHESTRATOR_URL",
    WEB_BACKEND_MODE := resolvedMode,
    WEB_MOCK_STATUS_DELAY_MS := parseNumber (procEnv "WEB_MOCK_STATUS_DELAY_MS") 650,
    WEB_MOCK_TOKEN_DELAY_MS := parseNumber (procEnv "WEB_MOCK_TOKEN_DELAY_MS") 110,
    WEB_MOCK_RESPONSE_DELAY_MS := parseNumber (procEnv "WEB_MOCK_RESPONSE_DELAY_MS") 400 }

/-- JavaScript property access `serverEnv[name]`: names absent from the
object literal (such as `WEB_USE_LOCAL_MOCK`) evaluate to `undefined`. -/
def ServerEnv.field (env : ServerEnv) (name : String) : JsValue :=
  if name = "ORCHESTRATOR_URL" then
    match env.ORCHESTRATOR_URL with
    | some u => .str u
    | none => .undefined
  else if name = "WEB_BACKEND_MODE" then .str env.WEB_BACKEND_MODE
  else if name = "WEB_MOCK_STATUS_DELAY_MS" then .num env.WEB_MOCK_STATUS_DELAY_MS
  else if name = "WEB_MOCK_TOKEN_DELAY_MS" then .num env.WEB_MOCK_TOKEN_DELAY_MS
  else if name = "WEB_MOCK_RESPONSE_DELAY_MS" then .num env.WEB_MOCK_RESPONSE_DELAY_MS
  else .undefined

/-! ## Stream API route (`apps/web/src/app/api/chat/stream/route.ts`) -/

/-- Outcome of parsing the request JSON body. -/
inductive RequestBody where
  | malformed
  | parsed (message : Option String) (sessionId : Option String)

/-- Outcome of `fetch` to the orchestrator. -/
inductive UpstreamOutcome where
  | ok (hasBody : Bool) (status : Nat) (events : List ChatStreamEvent)
  | failure

/-- Observable result of the stream route handler: HTTP status, the
NDJSON events written to the response body, and the URL fetched when
the proxy branch ran (`none` otherwise). -/
structure StreamRouteResult where
  status : Nat
  events : List ChatStreamEvent
  fetchedUrl : Option String

/-- The stream route's proxy-branch condition as written in the source:
`!serverEnv.WEB_USE_LOCAL_MOCK && serverEnv.ORCHESTRATOR_URL`, where
the first read is JS property access on a field the object does not
define. -/
def proxyCond (env : ServerEnv) : Bool :=
  !jsTruthy (env.field "WEB_USE_LOCAL_MOCK") && jsTruthy (env.field "ORCHESTRATOR_URL")

/-- The `POST` handler of `/api/chat/stream`. -/
def postChatStream (env : ServerEnv) (body : RequestBody)
    (upstream : UpstreamOutcome) : StreamRouteResult :=
  match body with
  | .malformed => ⟨400, [.error "invalid request payload"], none⟩
  | .parsed msg _sid =>
    let message := trimChars (msg.getD "").toList
    if message = [] then ⟨400, [.error "message is required"], none⟩
    else if proxyCond env then
      let url := env.ORCHESTRATOR_URL.getD "" ++ "/v1/chat/stream"
      match upstream with
      | .failure => ⟨502, [.error "failed to reach orchestrator", .done], some url⟩
      | .ok false _ _ => ⟨502, [.error "orchestrator stream unavailable"], some url⟩
      | .ok true st evs => ⟨st, evs, some url⟩
    else ⟨200, buildMockEvents (String.mk message), none⟩

/-! ## SQL guard

The orchestrator service (`apps/orchestrator`, Python) is not part of
this source tree; only its documentation, tests and callers are.  The
guard, planner, SQL-execution, validation and orchestration stages
below are therefore modelled from the specification (§4.2–§4.5). -/

/-- A lexical token of a SQL statement: an identifier or keyword
(lower-cased) or a numeric literal. -/
inductive SqlTok where
  | word (w : List Char)
  | num (n : Nat)
  deriving DecidableEq, Repr

/-- Replace single-quoted SQL string literals by a space; the `Bool`
argument tracks whether the scan is inside a literal. -/
def stripSqlLiterals : Bool → List Char → List Char
  | _, [] => []
  | false, c :: cs =>
    if c = '\'' then ' ' :: stripSqlLiterals true cs
    else c :: stripSqlLiterals false cs
  | true, c :: cs =>
    if c = '\'' then stripSqlLiterals false cs
    else stripSqlLiterals true cs

/-- SQL identifier characters. -/
def isSqlWordChar (c : Char) : Bool :=
  c.isAlphanum || c = '_'

/-- One step of the maximal-run splitter: accumulate identifier
characters, close the current run on any other character. -/
def sqlRunsStep (c : Char) (acc : List (List Char) × List Char) :
    List (List Char) × List Char :=
  if isSqlWordChar c then (acc.1, c :: acc.2)
  else (if acc.2 = [] then acc.1 else acc.2 :: acc.1, [])

/-- Maximal runs of identifier characters, in order. -/
def sqlRuns (s : List Char) : List (List Char) :=
  let r := s.foldr sqlRunsStep ([], [])
  if r.2 = [] then r.1 else r.2 :: r.1

/-- Modelled from the spec: the guard's lexical view of a statement —
string literals removed, maximal identifier runs lower-cased, digit
runs read as numbers (§4.2's "whole-word match outside string
literals"). -/
def sqlToks (sql : List Char) : List SqlTok :=
  (sqlRuns (stripSqlLiterals false sql)).map fun run =>
    if run.all Char.isDigit then .num ((digitsToNat run).getD 0)
    else .word (jsLower run)

/-- Modelled from the spec: the Policy Catalog Accessor's view
`{allowedTables, restrictedColumns, defaultRowLimit, maxRowLimit}`. -/
structure Catalog where
  allowedTables : List (List Char)
  restrictedColumns : List (List Char)
  defaultRowLimit : Nat
  maxRowLimit : Nat

/-- Modelled from the spec: a demonstration catalog with the two seeded
analytics tables named in the repository documentation; the numeric
limits are representative values (the catalog document itself is not in
the source tree). -/
def demoCatalog : Catalog :=
  { allowedTables := ["cia_sales_insights_cortex".toList, "cia_household_insights_cortex".toList],
    restrictedColumns := [],
    defaultRowLimit := 100,
    maxRowLimit := 1000 }

/-- Read-only statement introducers (§4.2 check 1). -/
def readOnlyIntroducers : List (List Char) :=
  ["select".toList, "with".toList]

/-- Mutation/DDL keywords (§4.2 check 2). -/
def forbiddenKeywords : List (List Char) :=
  ["insert", "update", "delete", "drop", "alter", "truncate",
   "merge", "grant", "create"].map String.toList

/-- Whether the first token is a read-only introducer. -/
def firstTokIsReadOnly (toks : List SqlTok) : Bool :=
  match toks with
  | .word w :: _ => readOnlyIntroducers.contains w
  | _ => false

/-- Whether any token is a forbidden mutation/DDL keyword. -/
def containsForbidden (toks : List SqlTok) : Bool :=
  toks.any fun t =>
    match t with
    | .word w => forbiddenKeywords.contains w
    | .num _ => false

/-- Table references: identifiers directly following `from` or `join`. -/
def tableRefs : List SqlTok → List (List Char)
  | .word w :: .word v :: rest =>
    if w = "from".toList ∨ w = "join".toList then v :: tableRefs (.word v :: rest)
    else tableRefs (.word v :: rest)
  | _ :: rest => tableRefs rest
  | [] => []

/-- Whether any token names a restricted column. -/
def hitsRestricted (cat : Catalog) (toks : List SqlTok) : Bool :=
  toks.any fun t =>
    match t with
    | .word w => cat.restrictedColumns.contains w
    | .num _ => false

/-- The `limit` keyword token text. -/
def limitKw : List Char := "limit".toList

/-- Values of the statement's row-limit clauses: each `limit` keyword
directly followed by a numeric literal. -/
def rowLimitValues : List SqlTok → List Nat
  | [] => []
  | .num _ :: rest => rowLimitValues rest
  | .word _ :: [] => []
  | .word _ :: .word v :: rest => rowLimitValues (.word v :: rest)
  | .word w :: .num n :: rest =>
    if w = limitKw then n :: rowLimitValues rest
    else rowLimitValues (.num n :: rest)

/-- Clamp every row-limit clause value to `maxLimit`. -/
def clampLimits (maxLimit : Nat) : List SqlTok → List SqlTok
  | [] => []
  | .num n :: rest => .num n :: clampLimits maxLimit rest
  | .word w :: [] => [.word w]
  | .word w :: .word v :: rest => .word w :: clampLimits maxLimit (.word v :: rest)
  | .word w :: .num n :: rest =>
    if w = limitKw then .word w :: .num (min n maxLimit) :: clampLimits maxLimit rest
    else .word w :: clampLimits maxLimit (.num n :: rest)

/-- Modelled from the spec: guard step 5 — append the catalog default
when no row-limit clause is present, otherwise clamp to the maximum;
this step rewrites, it never fails. -/
def applyRowLimit (cat : Catalog) (toks : List SqlTok) : List SqlTok :=
  if rowLimitValues toks = [] then toks ++ [.word limitKw, .num cat.defaultRowLimit]
  else clampLimits cat.maxRowLimit toks

/-- Guard verdicts (§4.2). -/
inductive GuardVerdict where
  | pass
  | not_read_only
  | forbidden_statement
  | table_not_allowed
  | restricted_column
  deriving DecidableEq, Repr

/-- `GuardedQuery`: raw SQL, verdict, and the token view of the
row-limited statement. -/
structure GuardedQuery where
  raw : List Char
  verdict : GuardVerdict
  limitedToks : List SqlTok
  deriving DecidableEq, Repr

/-- Modelled from the spec: `guard_sql(sql, catalog)` — the five
ordered, short-circuiting checks of §4.2. -/
def guardSql (sql : List Char) (cat : Catalog) : GuardedQuery :=
  let toks := sqlToks sql
  if !firstTokIsReadOnly toks then ⟨sql, .not_read_only, toks⟩
  else if containsForbidden toks then ⟨sql, .forbidden_statement, toks⟩
  else if !(tableRefs toks).all (fun t => cat.allowedTables.contains t) then
    ⟨sql, .table_not_allowed, toks⟩
  else if hitsRestricted cat toks then ⟨sql, .restricted_column, toks⟩
  else ⟨sql, .pass, applyRowLimit cat toks⟩

/-- The guard's checks 1–4 (everything before the row-limit step). -/
def passesEarlierChecks (sql : List Char) (cat : Catalog) : Bool :=
  let toks := sqlToks sql
  firstTokIsReadOnly toks && !containsForbidden toks &&
    (tableRefs toks).all (fun t => cat.allowedTables.contains t) &&
    !hitsRestricted cat toks

/-! ## SQL execution step (§4.4) -/

/-- Execution status of one plan step. -/
inductive StepStatus where
  | ok
  | blocked
  deriving DecidableEq, Repr

/-- Modelled from the spec: `StepResult` — status, optional guard block
reason, and the returned rows (cells are `none` for SQL NULL). -/
structure StepResult where
  status : StepStatus
  blockReason : Option GuardVerdict := none
  rows : List (List (Option JsNum)) := []

/-- Row count of a step result. -/
def StepResult.rowCount (r : StepResult) : Nat :=
  r.rows.length

/-- Modelled from the spec: per-step resolve → guard → execute with one
deterministic fallback on execution failure (§4.4).  A guard failure
marks the step `blocked` and nothing is executed.  The second component
is the log of statements handed to the SQL-execution adapter. -/
def executeStep (adapter : List SqlTok → Option (List (List (Option JsNum))))
    (cat : Catalog) (sql fallbackSql : List Char) :
    StepResult × List (List SqlTok) :=
  let g := guardSql sql cat
  if g.verdict = .pass then
    match adapter g.limitedToks with
    | some rows => ({ status := .ok, rows := rows }, [g.limitedToks])
    | none =>
      let gf := guardSql fallbackSql cat
      if gf.verdict = .pass then
        match adapter gf.limitedToks with
        | some rows => ({ status := .ok, rows := rows }, [g.limitedToks, gf.limitedToks])
        | none => ({ status := .blocked }, [g.limitedToks, gf.limitedToks])
      else ({ status := .blocked }, [g.limitedToks])
  else ({ status := .blocked, blockReason := some g.verdict }, [])

/-! ## Concurrent SQL execution scheduler (§4.4, §5) -/

/-- Modelled from the spec: scheduler events — a plan step (by index)
starts, or its in-flight remote call completes. -/
inductive SchedEvent where
  | start (i : Nat)
  | finish (i : Nat)
  deriving DecidableEq, Repr

/-- Scheduler state: indices currently in flight and the completion
log, in completion order. -/
structure SchedState (β : Type) where
  running : List Nat
  log : List (Nat × β)

/-- Modelled from the spec: one scheduler transition.  A step may start
only if it exists, has not already started, and fewer than `bound`
calls are in flight; a step finishes by appending its deterministic
result to the completion log.  Invalid transitions yield `none`. -/
def schedStep {σ β : Type} (steps : List σ) (run : σ → β) (bound : Nat)
    (st : SchedState β) : SchedEvent → Option (SchedState β)
  | .start i =>
    if i < steps.length ∧ i ∉ st.running ∧ i ∉ st.log.map Prod.fst ∧
        st.running.length < bound then
      some ⟨i :: st.running, st.log⟩
    else none
  | .finish i =>
    match steps[i]? with
    | some s =>
      if i ∈ st.running then some ⟨st.running.erase i, st.log ++ [(i, run s)]⟩
      else none
    | none => none

/-- Run a whole schedule from a given state. -/
def runSched {σ β : Type} (steps : List σ) (run : σ → β) (bound : Nat) :
    List SchedEvent → SchedState β → Option (SchedState β)
  | [], st => some st
  | e :: es, st =>
    match schedStep steps run bound st e with
    | some st2 => runSched steps run bound es st2
    | none => none

/-- Modelled from the spec: reassemble completion-ordered results into
original plan-step order before they leave the stage. -/
def reassemble {β : Type} (n : Nat) (log : List (Nat × β)) : List (Option β) :=
  (List.range n).map fun i => (log.find? (fun p => p.1 = i)).map Prod.snd

/-- The stage's output for a complete run of a schedule. -/
def sqlStageOutput {σ β : Type} (steps : List σ) (run : σ → β) (bound : Nat)
    (sched : List SchedEvent) : Option (List (Option β)) :=
  (runSched steps run bound sched ⟨[], []⟩).map fun st =>
    reassemble steps.length st.log

/-- Scheduler invariant: every completion-log entry holds the
deterministic result of its plan step, log keys are unique, in-flight
indices are unique, and no in-flight index has already completed. -/
def SchedInv {σ β : Type} (steps : List σ) (run : σ → β) (st : SchedState β) : Prop :=
  (∀ p ∈ st.log, ∃ s, steps[p.1]? = some s ∧ p.2 = run s) ∧
  (st.log.map Prod.fst).Nodup ∧
  st.running.Nodup ∧
  ∀ i ∈ st.running, i ∉ st.log.map Prod.fst

/-! ## Validation stage and orchestrator gate (§4.5) -/

/-- Validation failure reasons. -/
inductive ValidationFailure where
  | no_steps_executed
  | empty_result_set
  | row_limit_violation
  | excessive_nulls
  deriving DecidableEq, Repr

/-- Modelled from the spec: the Validation Stage's four ordered
aggregate checks; `none` means the report passes. -/
def validate (cat : Catalog) (results : List StepResult) :
    Option ValidationFailure :=
  if results.all (fun r => r.status = .blocked) then some .no_steps_executed
  else if (results.map StepResult.rowCount).sum = 0 then some .empty_result_set
  else if results.any (fun r => cat.maxRowLimit < r.rowCount) then
    some .row_limit_violation
  else
    let cells := (results.map (fun r => r.rows.flatten)).flatten
    let nulls := (cells.filter Option.isNone).length
    if cells.length ≠ 0 ∧ 95 * cells.length ≤ 100 * nulls then some .excessive_nulls
    else none

/-- A turn either terminates on a failed validation report or completes
with a synthesized response. -/
inductive TurnOutcome (ρ : Type) where
  | failed (userMessage : String) (trace : TraceStep)
  | completed (response : ρ)
  deriving DecidableEq

/-- The blocked validation trace step recorded on a failed report. -/
def blockedValidationTrace : TraceStep :=
  { id := "t3", title := "Validate and rank insights",
    summary := "Result validation failed", status := .blocked }

/-- Modelled from the spec: the orchestrator's validation gate — a
failing report terminates the turn with the user-facing message
"Result validation failed" and a `blocked` trace step; only a passing
report reaches the Synthesis Stage. -/
def validationGate {ρ : Type} (cat : Catalog) (results : List StepResult)
    (synthesize : List StepResult → ρ) : TurnOutcome ρ :=
  match validate cat results with
  | some _ => .failed "Result validation failed" blockedValidationTrace
  | none => .completed (synthesize results)

/-! ## Planner stage heuristic (§4.3) -/

/-- Route classification. -/
inductive Route where
  | fast_path
  | deep_path
  deriving DecidableEq, Repr

/-- Modelled from the spec: signal phrases of the deterministic
classification fallback — multi-part comparison language, multiple
entities, explicit step language — drawn from the spec's examples and
the repository's documented example queries. -/
def deepSignals : List String :=
  ["compare", "compared", "versus", " vs ", "year over year", "same period",
   "top and bottom", "for each", "step by step", "and then"]

/-- Modelled from the spec: the deterministic keyword heuristic used
when classification output is malformed or the adapter fails. -/
def classifyHeuristic (text : String) : Route :=
  let lowered := jsLower text.toList
  if deepSignals.any (fun kw => jsIncludes lowered kw.toList) then .deep_path
  else .fast_path

/-- Modelled from the spec: per-route step caps (`fast` default 2,
`deep` default 4). -/
def routeStepCap : Route → Nat
  | .fast_path => 2
  | .deep_path => 4

/-- One analytical plan step. -/
structure PlanStep where
  id : String
  goal : String
  deriving DecidableEq, Repr

/-- Modelled from the spec: planning — clip the parsed steps to the
route's cap by truncation, preserving order; malformed (or empty)
output falls back to one deterministic step restating the user's
literal request. -/
def buildPlan (route : Route) (userText : String)
    (parsedSteps : Option (List PlanStep)) : List PlanStep :=
  match parsedSteps with
  | none => [⟨"s1", userText⟩]
  | some [] => [⟨"s1", userText⟩]
  | some steps => steps.take (routeStepCap route)

/-! ## Event-sequence observers -/

/-- Whether an event is a status marker. -/
def isStatusEv : ChatStreamEvent → Bool
  | .status _ => true
  | _ => false

/-- Whether an event is an answer text fragment. -/
def isDeltaEv : ChatStreamEvent → Bool
  | .answer_delta _ => true
  | _ => false

/-- Whether an event is the final structured response
(`response` with `phase = "final"`). -/
def isFinalResponseEv : ChatStreamEvent → Bool
  | .response (some p) _ => p = "final"
  | _ => false

/-- Whether the list contains a status marker strictly followed,
later, by a final response event. -/
def statusThenFinal : List ChatStreamEvent → Bool
  | [] => false
  | e :: rest => (isStatusEv e && rest.any isFinalResponseEv) || statusThenFinal rest

/-- Whether some status marker appears strictly after an
`answer_delta` event and strictly before a final response event. -/
def statusBetweenDeltaAndFinal : List ChatStreamEvent → Bool
  | [] => false
  | e :: rest =>
    if isDeltaEv e then statusThenFinal rest
    else statusBetweenDeltaAndFinal rest

/-- Whether the emitted sequence is exactly one error event followed by
`done`. -/
def isErrorThenDone : List ChatStreamEvent → Bool
  | [.error _, .done] => true
  | _ => false

/-- Prefix-merge onto the head of a list of segments (used to state how
splitting distributes over append). -/
def consHead (pre : List Char) : List (List Char) → List (List Char)
  | [] => [pre]
  | l :: ls => (pre ++ l) :: ls

/-! # Lemmas -/

theorem jsSplit_ne_nil (sep : Char) (s : List Char) : jsSplit sep s ≠ [] := by
  induction s with
  | nil => simp [jsSplit]
  | cons c cs ih =>
    simp only [jsSplit]
    split
    · simp
    · cases h : jsSplit sep cs with
      | nil => simp
      | cons l ls => simp

theorem rowLimitValues_append_limit (d : Nat) (toks : List SqlTok) :
    rowLimitValues (toks ++ [.word limitKw, .num d]) = rowLimitValues toks ++ [d] := by
  induction toks using rowLimitValues.induct with
  | _ => simp_all [rowLimitValues, limitKw]

theorem clampLimits_word_cons (maxL : Nat) (v : List Char) (rest : List SqlTok) :
    ∃ X, clampLimits maxL (.word v :: rest) = .word v :: X := by
  match rest with
  | [] => exact ⟨[], rfl⟩
  | .word u :: r => exact ⟨_, rfl⟩
  | .num n :: r =>
    by_cases h : v = limitKw
    · exact ⟨.num (min n maxL) :: clampLimits maxL r, by simp [clampLimits, h]⟩
    · exact ⟨clampLimits maxL (.num n :: r), by simp [clampLimits, h]⟩

theorem rowLimitValues_clampLimits (maxL : Nat) (toks : List SqlTok) :
    rowLimitValues (clampLimits maxL toks) = (rowLimitValues toks).map (fun n => min n maxL) := by
  induction toks using clampLimits.induct maxL
  all_goals try simp_all [rowLimitValues, clampLimits, limitKw]
  next w v rest ih =>
    obtain ⟨X, hX⟩ := clampLimits_word_cons maxL v rest
    calc rowLimitValues (clampLimits maxL (.word w :: .word v :: rest))
        = rowLimitValues (.word w :: .word v :: X) := by
          rw [show clampLimits maxL (.word w :: .word v :: rest)
              = .word w :: clampLimits maxL (.word v :: rest) from rfl, hX]
      _ = rowLimitValues (.word v :: X) := by simp [rowLimitValues]
      _ = rowLimitValues (clampLimits maxL (.word v :: rest)) := by rw [hX]
      _ = _ := ih

theorem forall2_min_le (maxL : Nat) (ls : List Nat) :
    List.Forall₂ (· ≤ ·) (ls.map (fun n => min n maxL)) ls := by
  induction ls with
  | nil => simp
  | cons n rest ih => exact List.Forall₂.cons (Nat.min_le_left n maxL) ih

/-! # Claim theorems -/

/-- C1 counterexample: for the non-empty input `"hi"` the mock stream
emits a status marker strictly after the first `answer_delta` event and
strictly before the final-phase response event (the
`"Finalizing response payload and audit trace"` status), so the claimed
relative order — no status between the deltas and the final response —
fails on the code. -/
theorem buildMockEvents_finalizing_status_counterexample :
    statusBetweenDeltaAndFinal (buildMockEvents "hi") = true := by decide

/-- C1 (amended): for every non-empty input message, the incremental
mock stream emits, in order: the seven initial status markers, one
draft response (phase `"draft"`), a non-empty block of `answer_delta`
fragments, then one further status marker
(`"Finalizing response payload and audit trace"`), then the final
structured response (phase `"final"`), then the completion event. -/
theorem buildMockEvents_order (m : String) (_hm : m ≠ "") :
    ∃ (ds : List ChatStreamEvent) (dr fin : AgentResponse),
      buildMockEvents m =
        [ ChatStreamEvent.status "Understanding your question",
          .status "Building governed plan",
          .status "Resolving latest RESP_DATE context from semantic model",
          .status "Generating governed SQL and running checks",
          .status "Executing SQL and retrieving evidence tables",
          .status "Running numeric QA and consistency checks",
          .status "Ranking insights by impact and confidence",
          .response (some "draft") dr ]
        ++ ds
        ++ [ .status "Finalizing response payload and audit trace",
             .response (some "final") fin,
             .done ]
      ∧ ds ≠ [] ∧ (∀ e ∈ ds, isDeltaEv e = true) := by
  refine ⟨(jsSplit ' ' (getMockAgentResponse m).answer.toList).map
      (fun token => .answer_delta (String.mk token ++ " ")),
    (if trimChars ((jsSplit '.' (getMockAgentResponse m).answer.toList).headD []) = [] then
        getMockAgentResponse m
      else
        { getMockAgentResponse m with
          answer :=
            String.mk (trimChars ((jsSplit '.' (getMockAgentResponse m).answer.toList).headD []))
              ++ "." }),
    getMockAgentResponse m, ?_, ?_, ?_⟩
  · rfl
  · have := jsSplit_ne_nil ' ' (getMockAgentResponse m).answer.toList
    simpa using this
  · intro e he
    obtain ⟨t, -, rfl⟩ := List.mem_map.mp he
    rfl

/-- Witness for C1's amended theorem at the concrete input `"hi"`. -/
theorem buildMockEvents_order_witness :
    ∃ (ds : List ChatStreamEvent) (dr fin : AgentResponse),
      buildMockEvents "hi" =
        [ ChatStreamEvent.status "Understanding your question",
          .status "Building governed plan",
          .status "Resolving latest RESP_DATE context from semantic model",
          .status "Generating governed SQL and running checks",
          .status "Executing SQL and retrieving evidence tables",
          .status "Running numeric QA and consistency checks",
          .status "Ranking insights by impact and confidence",
          .response (some "draft") dr ]
        ++ ds
        ++ [ .status "Finalizing response payload and audit trace",
             .response (some "final") fin,
             .done ]
      ∧ ds ≠ [] ∧ (∀ e ∈ ds, isDeltaEv e = true) :=
  buildMockEvents_order "hi" (by decide)

/-- C10 (confirmed): for every input query, every data table of the
mock agent's response has `rowCount` equal to the length of its rows
array (hence nonnegative), and its columns equal the keys of its first
row. -/
theorem dataTables_wellformed (q : String) :
    (getMockAgentResponse q).dataTables.Forall fun t =>
      t.rowCount = t.rows.length ∧ 0 ≤ t.rowCount ∧
      t.columns = (match t.rows with | [] => [] | r :: _ => r.map Prod.fst) := by
  rw [List.forall_iff_forall_mem]
  cases h : queryProfile q
  case state_sales =>
    simp only [getMockAgentResponse, h]
    rw [show (stateSalesResponse q).dataTables = (stateSalesResponse "").dataTables from rfl]
    decide
  case q4_yoy =>
    simp only [getMockAgentResponse, h]
    rw [show (q4YoyResponse q).dataTables = (q4YoyResponse "").dataTables from rfl]
    decide
  case store_performance =>
    simp only [getMockAgentResponse, h]
    rw [show (storePerformanceResponse q).dataTables
        = (storePerformanceResponse "").dataTables from rfl]
    decide
  case overview =>
    simp only [getMockAgentResponse, h]
    rw [show (overviewResponse q).dataTables = (overviewResponse "").dataTables from rfl]
    decide

/-- C5 (confirmed): when every step result is blocked, the Validation
Stage fails with `no_steps_executed`, the turn terminates with the
user-facing message "Result validation failed" and a `blocked` trace
step, and the outcome is independent of the synthesis function — the
Synthesis Stage is never invoked. -/
theorem validation_all_blocked {ρ : Type} (cat : Catalog) (results : List StepResult)
    (synthesize : List StepResult → ρ)
    (h : ∀ r ∈ results, r.status = .blocked) :
    validate cat results = some .no_steps_executed ∧
    validationGate cat results synthesize =
      .failed "Result validation failed" blockedValidationTrace ∧
    blockedValidationTrace.status = .blocked ∧
    ∀ synthesize2 : List StepResult → ρ,
      validationGate cat results synthesize = validationGate cat results synthesize2 := by
  have hall : (results.all fun r => decide (r.status = .blocked)) = true := by
    rw [List.all_eq_true]
    intro r hr
    exact decide_eq_true (h r hr)
  have hv : validate cat results = some .no_steps_executed := by
    simp [validate, hall]
  refine ⟨hv, ?_, rfl, ?_⟩
  · simp [validationGate, hv]
  · intro synthesize2
    simp [validationGate, hv]

/-- Witness for C5 at a concrete all-blocked result list. -/
theorem validation_all_blocked_witness :
    validate demoCatalog [{ status := .blocked }] = some .no_steps_executed ∧
    validationGate demoCatalog [{ status := .blocked }] (fun _ => (0 : Nat)) =
      .failed "Result validation failed" blockedValidationTrace ∧
    blockedValidationTrace.status = .blocked ∧
    ∀ synthesize2 : List StepResult → Nat,
      validationGate demoCatalog [{ status := .blocked }] (fun _ => (0 : Nat)) =
        validationGate demoCatalog [{ status := .blocked }] synthesize2 :=
  validation_all_blocked demoCatalog [{ status := .blocked }] (fun _ => (0 : Nat))
    (by decide)

/-- C4 counterexample: `DROP TABLE sales` contains the mutation keyword
`drop` as a whole word outside string literals, yet the guard's verdict
is `not_read_only` (check 1 short-circuits before check 2), not
`forbidden_statement` — so the claim's universal statement fails. -/
theorem guard_forbidden_counterexample :
    containsForbidden (sqlToks "DROP TABLE sales".toList) = true ∧
    (guardSql "DROP TABLE sales".toList demoCatalog).verdict = .not_read_only ∧
    (guardSql "DROP TABLE sales".toList demoCatalog).verdict ≠ .forbidden_statement := by
  decide

/-- C4 (amended): for every SQL string that passes the read-only check
and contains a mutation/DDL keyword as a whole-word match outside
string literals, the guard's verdict is `forbidden_statement`, and the
execution step hands nothing to the SQL-execution adapter. -/
theorem guard_forbidden_blocks (sql : List Char) (cat : Catalog)
    (adapter : List SqlTok → Option (List (List (Option JsNum))))
    (fallbackSql : List Char)
    (h1 : firstTokIsReadOnly (sqlToks sql) = true)
    (h2 : containsForbidden (sqlToks sql) = true) :
    (guardSql sql cat).verdict = .forbidden_statement ∧
    (executeStep adapter cat sql fallbackSql).2 = [] := by
  have hv : (guardSql sql cat).verdict = .forbidden_statement := by
    simp [guardSql, h1, h2]
  exact ⟨hv, by simp [executeStep, hv]⟩

/-- Witness for C4's amended theorem at the spec's scenario input. -/
theorem guard_forbidden_blocks_witness :
    (guardSql "SELECT * FROM sales; DROP TABLE sales;".toList demoCatalog).verdict
      = .forbidden_statement ∧
    (executeStep (fun _ => none) demoCatalog
        "SELECT * FROM sales; DROP TABLE sales;".toList []).2 = [] :=
  guard_forbidden_blocks "SELECT * FROM sales; DROP TABLE sales;".toList demoCatalog
    (fun _ => none) [] (by decide) (by decide)

/-- C3 (confirmed): for every SQL string passing the guard's earlier
checks (1–4): the guard passes (the row-limit step never fails); when
no row-limit clause is present the output has exactly one limit clause
equal to the catalog default; when limit clauses are present each is
clamped to the catalog maximum and never raised. -/
theorem guard_row_limit (sql : List Char) (cat : Catalog)
    (h : passesEarlierChecks sql cat = true) :
    (guardSql sql cat).verdict = .pass
    ∧ (guardSql sql cat).limitedToks = applyRowLimit cat (sqlToks sql)
    ∧ (rowLimitValues (sqlToks sql) = [] →
        rowLimitValues (guardSql sql cat).limitedToks = [cat.defaultRowLimit])
    ∧ (rowLimitValues (sqlToks sql) ≠ [] →
        rowLimitValues (guardSql sql cat).limitedToks
          = (rowLimitValues (sqlToks sql)).map (fun n => min n cat.maxRowLimit)
        ∧ List.Forall₂ (· ≤ ·) (rowLimitValues (guardSql sql cat).limitedToks)
            (rowLimitValues (sqlToks sql))) := by
  simp only [passesEarlierChecks, Bool.and_eq_true] at h
  obtain ⟨⟨⟨h1, h2⟩, h3⟩, h4⟩ := h
  rw [Bool.not_eq_true'] at h2 h4
  have hg : guardSql sql cat = ⟨sql, .pass, applyRowLimit cat (sqlToks sql)⟩ := by
    simp only [guardSql, h1, h2, h3, h4]
    simp
  refine ⟨by rw [hg], by rw [hg], ?_, ?_⟩
  · intro h0
    rw [hg]
    have ha : applyRowLimit cat (sqlToks sql)
        = sqlToks sql ++ [.word limitKw, .num cat.defaultRowLimit] := by
      unfold applyRowLimit
      rw [if_pos h0]
    rw [ha, rowLimitValues_append_limit, h0, List.nil_append]
  · intro hne
    rw [hg]
    have ha : applyRowLimit cat (sqlToks sql) = clampLimits cat.maxRowLimit (sqlToks sql) := by
      unfold applyRowLimit
      rw [if_neg hne]
    rw [ha, rowLimitValues_clampLimits]
    exact ⟨rfl, forall2_min_le cat.maxRowLimit (rowLimitValues (sqlToks sql))⟩

/-- Witness for C3: a statement without a limit clause gains exactly
the catalog default, and the guard passes. -/
theorem guard_row_limit_witness :
    (guardSql "select * from cia_sales_insights_cortex".toList demoCatalog).verdict = .pass ∧
    rowLimitValues
        (guardSql "select * from cia_sales_insights_cortex".toList demoCatalog).limitedToks
      = [demoCatalog.defaultRowLimit] := by
  have h := guard_row_limit "select * from cia_sales_insights_cortex".toList demoCatalog
    (by decide)
  exact ⟨h.1, h.2.2.1 (by decide)⟩

/-- C6 counterexample: a malformed-JSON request is answered with a
single `error` event and no `done` event, so the claimed
error-then-done sequence fails on the code for this failure class. -/
theorem stream_error_counterexample :
    isErrorThenDone (postChatStream (mkServerEnv fun _ => none) .malformed .failure).events
      = false := by
  decide

/-- C6 (amended): a malformed JSON body and a missing/empty message
each produce a single `error` event (HTTP 400) with no `done`; an
orchestrator fetch failure produces `error` followed by `done`; a
reachable orchestrator without a response body produces a single
`error` event. -/
theorem stream_error_events (env : ServerEnv) (up : UpstreamOutcome)
    (msg : Option String) (sid : Option String) :
    (postChatStream env .malformed up).events = [.error "invalid request payload"] ∧
    (trimChars (msg.getD "").toList = [] →
      (postChatStream env (.parsed msg sid) up).events = [.error "message is required"]) ∧
    (trimChars (msg.getD "").toList ≠ [] → proxyCond env = true →
      (postChatStream env (.parsed msg sid) .failure).events
        = [.error "failed to reach orchestrator", .done] ∧
      ∀ st evs, (postChatStream env (.parsed msg sid) (.ok false st evs)).events
        = [.error "orchestrator stream unavailable"]) := by
  refine ⟨rfl, ?_, ?_⟩
  · intro h0
    simp only [String.toList] at h0
    simp [postChatStream, h0]
  · intro hne hp
    simp only [String.toList] at hne
    constructor
    · simp [postChatStream, hne, hp]
    · intro st evs
      simp [postChatStream, hne, hp]

/-- Witness for C6's amended theorem: a whitespace-only message. -/
theorem stream_error_events_witness :
    (postChatStream (mkServerEnv fun _ => none) (.parsed (some " ") none) .failure).events
      = [.error "message is required"] :=
  (stream_error_events (mkServerEnv fun _ => none) .failure (some " ") none).2.1 (by decide)

/-- The stream route's observable behaviour depends on the environment
only through `ORCHESTRATOR_URL`. -/
theorem postChatStream_depends_only_on_url (env env' : ServerEnv)
    (h : env.ORCHESTRATOR_URL = env'.ORCHESTRATOR_URL)
    (b : RequestBody) (up : UpstreamOutcome) :
    (postChatStream env b up).events = (postChatStream env' b up).events ∧
    (postChatStream env b up).fetchedUrl = (postChatStream env' b up).fetchedUrl := by
  have hp : proxyCond env = proxyCond env' := by
    simp [proxyCond, ServerEnv.field, h]
  cases b with
  | malformed => exact ⟨rfl, rfl⟩
  | parsed msg sid =>
    by_cases hm : trimChars (msg.getD "").data = []
    · simp [postChatStream, hm]
    · by_cases hpc : proxyCond env' = true
      · cases up with
        | failure => simp [postChatStream, hm, hp, hpc, h]
        | ok hb st evs => cases hb <;> simp [postChatStream, hm, hp, hpc, h]
      · rw [Bool.not_eq_true] at hpc
        simp [postChatStream, hm, hp, hpc]

/-- C8 (confirmed): the `serverEnv` object defines no
`WEB_USE_LOCAL_MOCK` field, so the stream route's proxy condition
reduces to the truthiness of `ORCHESTRATOR_URL`: with a non-empty
`ORCHESTRATOR_URL` the handler proxies to the orchestrator's
`/v1/chat/stream` regardless of the configured backend mode, and the
local mock-stream branch runs only when `ORCHESTRATOR_URL` is unset
(or empty, which JS treats as falsy). -/
theorem stream_route_ignores_backend_mode (procEnv : String → Option String)
    (msg : String) (sid : Option String) (up : UpstreamOutcome)
    (hmsg : trimChars msg.toList ≠ []) :
    (mkServerEnv procEnv).field "WEB_USE_LOCAL_MOCK" = .undefined ∧
    (∀ u, procEnv "ORCHESTRATOR_URL" = some u → u ≠ "" →
      (postChatStream (mkServerEnv procEnv) (.parsed (some msg) sid) up).fetchedUrl
        = some (u ++ "/v1/chat/stream")) ∧
    ((procEnv "ORCHESTRATOR_URL" = none ∨ procEnv "ORCHESTRATOR_URL" = some "") →
      (postChatStream (mkServerEnv procEnv) (.parsed (some msg) sid) up).fetchedUrl = none ∧
      (postChatStream (mkServerEnv procEnv) (.parsed (some msg) sid) up).events
        = buildMockEvents (String.mk (trimChars msg.toList))) ∧
    (∀ procEnv2 : String → Option String,
      (∀ k, k ≠ "WEB_BACKEND_MODE" → k ≠ "WEB_USE_LOCAL_MOCK" → procEnv2 k = procEnv k) →
      (postChatStream (mkServerEnv procEnv2) (.parsed (some msg) sid) up).events
        = (postChatStream (mkServerEnv procEnv) (.parsed (some msg) sid) up).events ∧
      (postChatStream (mkServerEnv procEnv2) (.parsed (some msg) sid) up).fetchedUrl
        = (postChatStream (mkServerEnv procEnv) (.parsed (some msg) sid) up).fetchedUrl) := by
  simp only [String.toList] at hmsg
  have hfield : (mkServerEnv procEnv).field "WEB_USE_LOCAL_MOCK" = .undefined := by
    simp [ServerEnv.field]
  have hurl : (mkServerEnv procEnv).ORCHESTRATOR_URL = procEnv "ORCHESTRATOR_URL" := rfl
  refine ⟨hfield, ?_, ?_, ?_⟩
  · intro u hu hne
    have hp : proxyCond (mkServerEnv procEnv) = true := by
      simp [proxyCond, ServerEnv.field, jsTruthy, hurl, hu, hne]
    cases up with
    | failure => simp [postChatStream, hmsg, hp, hurl, hu]
    | ok hb st evs => cases hb <;> simp [postChatStream, hmsg, hp, hurl, hu]
  · intro hu
    have hp : proxyCond (mkServerEnv procEnv) = false := by
      rcases hu with hu | hu <;> simp [proxyCond, ServerEnv.field, jsTruthy, hurl, hu]
    simp [postChatStream, hmsg, hp]
  · intro procEnv2 hagree
    have h2 : (mkServerEnv procEnv2).ORCHESTRATOR_URL = (mkServerEnv procEnv).ORCHESTRATOR_URL := by
      simp only [mkServerEnv]
      exact hagree "ORCHESTRATOR_URL" (by decide) (by decide)
    exact postChatStream_depends_only_on_url _ _ h2 _ up

/-- Witness for C8: backend mode configured to `web_mock` and the
legacy local-mock flag set, yet the route proxies because
`ORCHESTRATOR_URL` is present. -/
theorem stream_route_ignores_backend_mode_witness :
    (postChatStream
        (mkServerEnv fun k =>
          if k = "ORCHESTRATOR_URL" then some "http://localhost:8787"
          else if k = "WEB_BACKEND_MODE" then some "web_mock"
          else if k = "WEB_USE_LOCAL_MOCK" then some "true"
          else none)
        (.parsed (some "hello") none) .failure).fetchedUrl
      = some ("http://localhost:8787" ++ "/v1/chat/stream") :=
  (stream_route_ignores_backend_mode
      (fun k =>
        if k = "ORCHESTRATOR_URL" then some "http://localhost:8787"
        else if k = "WEB_BACKEND_MODE" then some "web_mock"
        else if k = "WEB_USE_LOCAL_MOCK" then some "true"
        else none)
      "hello" none .failure (by decide)).2.1
    "http://localhost:8787" (by decide) (by decide)

set_option maxRecDepth 4096 in
/-- C7 (confirmed; the route classification is modelled from the spec):
for the input "Show me my sales in each state in descending order" the
mock pipeline answers with confidence `"high"`, its trace carries a
governed SQL statement that passes the guard and references only the
allowed sales-insights table, the heuristic classifier routes the turn
to the fast path, and every fast-path plan has 1–2 steps. -/
theorem fast_path_scenario :
    (getMockAgentResponse "Show me my sales in each state in descending order").confidence
      = "high"
    ∧ (∃ st ∈ (getMockAgentResponse "Show me my sales in each state in descending order").trace,
        st.sql = some "SELECT TRANSACTION_STATE, SUM(SPEND) AS spend_usd_m, SUM(TRANSACTIONS) AS transactions_k, MIN(RESP_DATE) AS data_from, MAX(RESP_DATE) AS data_through FROM cia_sales_insights_cortex GROUP BY TRANSACTION_STATE ORDER BY spend_usd_m DESC;")
    ∧ (guardSql "SELECT TRANSACTION_STATE, SUM(SPEND) AS spend_usd_m, SUM(TRANSACTIONS) AS transactions_k, MIN(RESP_DATE) AS data_from, MAX(RESP_DATE) AS data_through FROM cia_sales_insights_cortex GROUP BY TRANSACTION_STATE ORDER BY spend_usd_m DESC;".toList demoCatalog).verdict = .pass
    ∧ tableRefs (sqlToks "SELECT TRANSACTION_STATE, SUM(SPEND) AS spend_usd_m, SUM(TRANSACTIONS) AS transactions_k, MIN(RESP_DATE) AS data_from, MAX(RESP_DATE) AS data_through FROM cia_sales_insights_cortex GROUP BY TRANSACTION_STATE ORDER BY spend_usd_m DESC;".toList)
        = ["cia_sales_insights_cortex".toList]
    ∧ "cia_sales_insights_cortex".toList ∈ demoCatalog.allowedTables
    ∧ classifyHeuristic "Show me my sales in each state in descending order" = .fast_path
    ∧ ∀ parsedSteps,
        1 ≤ (buildPlan .fast_path "Show me my sales in each state in descending order"
              parsedSteps).length
        ∧ (buildPlan .fast_path "Show me my sales in each state in descending order"
              parsedSteps).length ≤ 2 := by
  refine ⟨by decide, by decide, by decide, by decide, by decide, by decide, ?_⟩
  intro parsedSteps
  match parsedSteps with
  | none => simp [buildPlan]
  | some [] => simp [buildPlan]
  | some (s :: rest) =>
    have h1 : buildPlan .fast_path "Show me my sales in each state in descending order"
        (some (s :: rest)) = (s :: rest).take 2 := rfl
    rw [h1, List.length_take, List.length_cons]
    omega


theorem consHead_ne_nil (p : List Char) (ls : List (List Char)) : consHead p ls ≠ [] := by
  cases ls <;> simp [consHead]

theorem getLastD_irrel {α : Type} (l : List α) (h : l ≠ []) (d d' : α) :
    l.getLastD d = l.getLastD d' := by
  cases l with
  | nil => exact absurd rfl h
  | cons b bs => rw [List.getLastD_cons, List.getLastD_cons]

theorem getLastD_append_right {α : Type} (l l' : List α) (h : l' ≠ []) :
    ∀ d, (l ++ l').getLastD d = l'.getLastD d := by
  induction l with
  | nil => intro d; rfl
  | cons a as ih =>
    intro d
    rw [List.cons_append, List.getLastD_cons, ih a, getLastD_irrel l' h a d]

theorem jsSplit_cons_ne (sep c : Char) (cs : List Char) (h : c ≠ sep) :
    jsSplit sep (c :: cs) = consHead [c] (jsSplit sep cs) := by
  simp only [jsSplit, if_neg h]
  cases h2 : jsSplit sep cs <;> simp [consHead]

theorem jsSplit_no_sep (sep : Char) (s : List Char) (h : sep ∉ s) : jsSplit sep s = [s] := by
  induction s with
  | nil => rfl
  | cons c cs ih =>
    have hc : c ≠ sep := by
      rintro rfl
      exact h (List.mem_cons_self c cs)
    rw [jsSplit_cons_ne sep c cs hc, ih (fun m => h (List.mem_cons_of_mem c m))]
    rfl

theorem jsSplit_getLastD_not_mem (sep : Char) (s : List Char) :
    sep ∉ (jsSplit sep s).getLastD [] := by
  induction s with
  | nil => simp [jsSplit]
  | cons c cs ih =>
    by_cases hc : c = sep
    · subst hc
      have e : jsSplit c (c :: cs) = [] :: jsSplit c cs := by simp [jsSplit]
      rw [e, List.getLastD_cons]
      rw [getLastD_irrel _ (jsSplit_ne_nil c cs) [] []] at ih
      exact ih
    · rw [jsSplit_cons_ne sep c cs hc]
      cases hS : jsSplit sep cs with
      | nil => exact absurd hS (jsSplit_ne_nil sep cs)
      | cons l ls =>
        rw [hS] at ih
        cases ls with
        | nil =>
          simp only [consHead, List.getLastD_cons, List.getLastD] at ih ⊢
          intro hmem
          rcases List.mem_append.mp hmem with hm | hm
          · have he : sep = c := by simpa using hm
            exact hc he.symm
          · exact ih hm
        | cons l2 ls2 =>
          simp only [consHead, List.getLastD_cons] at ih ⊢
          exact ih

theorem consHead_split (p : List Char) (S T : List (List Char)) (hS : S ≠ []) (hT : T ≠ []) :
    consHead p (S.dropLast ++ consHead (S.getLastD []) T)
      = (consHead p S).dropLast ++ consHead ((consHead p S).getLastD []) T := by
  cases S with
  | nil => exact absurd rfl hS
  | cons l ls =>
    cases ls with
    | nil =>
      cases T with
      | nil => exact absurd rfl hT
      | cons t ts => simp [consHead, List.getLastD, List.append_assoc]
    | cons l2 ls2 =>
      simp only [consHead, List.getLastD_cons, List.dropLast_cons₂, List.cons_append]

theorem jsSplit_append (sep : Char) (a b : List Char) :
    jsSplit sep (a ++ b)
      = (jsSplit sep a).dropLast ++ consHead ((jsSplit sep a).getLastD []) (jsSplit sep b) := by
  induction a with
  | nil =>
    cases hT : jsSplit sep b with
    | nil => exact absurd hT (jsSplit_ne_nil sep b)
    | cons t ts =>
      simp [jsSplit, consHead, hT]
  | cons c cs ih =>
    by_cases hc : c = sep
    · subst hc
      have e1 : ∀ t : List Char, jsSplit c (c :: t) = [] :: jsSplit c t := by
        intro t
        simp [jsSplit]
      rw [List.cons_append, e1, e1, ih]
      cases hS : jsSplit c cs with
      | nil => exact absurd hS (jsSplit_ne_nil c cs)
      | cons l ls =>
        simp [List.dropLast_cons₂, List.getLastD_cons]
    · rw [List.cons_append, jsSplit_cons_ne sep c (cs ++ b) hc, jsSplit_cons_ne sep c cs hc, ih]
      exact consHead_split [c] (jsSplit sep cs) (jsSplit sep b) (jsSplit_ne_nil sep cs)
        (jsSplit_ne_nil sep b)

theorem lineEvents_append {E : Type} (parse : List Char → E) (xs ys : List (List Char)) :
    lineEvents parse (xs ++ ys) = lineEvents parse xs ++ lineEvents parse ys :=
  List.filterMap_append xs ys _

theorem parseNdjsonChunk_append {E : Type} (parse : List Char → E) (a b carry : List Char) :
    parseNdjsonChunk parse (a ++ b) carry
      = ((parseNdjsonChunk parse a carry).1
          ++ (parseNdjsonChunk parse b (parseNdjsonChunk parse a carry).2).1,
         (parseNdjsonChunk parse b (parseNdjsonChunk parse a carry).2).2) := by
  simp only [parseNdjsonChunk]
  rw [show carry ++ (a ++ b) = (carry ++ a) ++ b from (List.append_assoc carry a b).symm]
  rw [jsSplit_append '\n' (carry ++ a) b]
  rw [jsSplit_append '\n' ((jsSplit '\n' (carry ++ a)).getLastD []) b]
  rw [jsSplit_no_sep '\n' _ (jsSplit_getLastD_not_mem '\n' (carry ++ a))]
  cases hC : consHead ((jsSplit '\n' (carry ++ a)).getLastD []) (jsSplit '\n' b) with
  | nil => exact absurd hC (consHead_ne_nil _ _)
  | cons x xs =>
    simp only [List.dropLast_single, List.getLastD_cons, List.getLastD_nil, List.nil_append]
    rw [List.dropLast_append_of_ne_nil _ (by simp : (x :: xs) ≠ [])]
    rw [lineEvents_append]
    rw [getLastD_append_right _ _ (by simp : (x :: xs) ≠ [])]
    rw [hC]

theorem foldNdjsonChunks_flatten {E : Type} (parse : List Char → E)
    (chunks : List (List Char)) (carry : List Char) (hc : ('\n' : Char) ∉ carry) :
    foldNdjsonChunks parse chunks carry = parseNdjsonChunk parse chunks.flatten carry := by
  induction chunks generalizing carry with
  | nil =>
    simp [foldNdjsonChunks, parseNdjsonChunk, jsSplit_no_sep '\n' carry hc, lineEvents]
  | cons c cs ih =>
    have hc2 : ('\n' : Char) ∉ (parseNdjsonChunk parse c carry).2 := by
      simp only [parseNdjsonChunk]
      exact jsSplit_getLastD_not_mem '\n' (carry ++ c)
    simp only [foldNdjsonChunks]
    rw [ih _ hc2, List.flatten_cons, parseNdjsonChunk_append]

theorem jsSplit_flatten_terminated (lines : List (List Char))
    (h : ∀ l ∈ lines, ('\n' : Char) ∉ l) :
    jsSplit '\n' (lines.map (fun l => l ++ ['\n'])).flatten = lines ++ [[]] := by
  induction lines with
  | nil => rfl
  | cons l ls ih =>
    have hl : ('\n' : Char) ∉ l := h l (List.mem_cons_self l ls)
    have hls : ∀ x ∈ ls, ('\n' : Char) ∉ x := fun x hx => h x (List.mem_cons_of_mem l hx)
    simp only [List.map_cons, List.flatten_cons]
    rw [List.append_assoc, jsSplit_append '\n' l _, jsSplit_no_sep '\n' l hl]
    rw [show (['\n'] : List Char) ++ (ls.map (fun l => l ++ ['\n'])).flatten
        = ('\n' : Char) :: (ls.map (fun l => l ++ ['\n'])).flatten from rfl]
    rw [show jsSplit '\n' (('\n' : Char) :: (ls.map (fun l => l ++ ['\n'])).flatten)
        = [] :: jsSplit '\n' (ls.map (fun l => l ++ ['\n'])).flatten from by simp [jsSplit]]
    rw [ih hls]
    simp [consHead]

theorem lineEvents_clean {E : Type} (parse : List Char → E) (lines : List (List Char))
    (h : ∀ l ∈ lines, trimChars l = l ∧ l ≠ []) :
    lineEvents parse lines = lines.map parse := by
  induction lines with
  | nil => rfl
  | cons l ls ih =>
    obtain ⟨h1, h2⟩ := h l (List.mem_cons_self l ls)
    have htail := ih fun x hx => h x (List.mem_cons_of_mem l hx)
    simp only [lineEvents, List.filterMap_cons] at htail ⊢
    rw [h1, if_neg h2, htail, List.map_cons]

/-- C9 (confirmed): for every list of text chunks whose concatenation
consists of newline-terminated event lines, folding `parseNdjsonChunk`
over the chunks while threading the carry yields exactly the parsed
events of the complete lines, in order, independently of where the
chunk boundaries fall, and the final carry is empty (the text after the
last newline). -/
theorem ndjson_chunking (E : Type) (parse : List Char → E)
    (lines chunks : List (List Char))
    (hlines : ∀ l ∈ lines, l ≠ [] ∧ ('\n' : Char) ∉ l ∧ trimChars l = l)
    (hchunks : chunks.flatten = (lines.map (fun l => l ++ ['\n'])).flatten) :
    foldNdjsonChunks parse chunks [] = (lines.map parse, []) := by
  rw [foldNdjsonChunks_flatten parse chunks [] (by simp), hchunks]
  simp only [parseNdjsonChunk, List.nil_append]
  rw [jsSplit_flatten_terminated lines (fun l hl => (hlines l hl).2.1)]
  rw [List.dropLast_concat, List.getLastD_concat]
  rw [lineEvents_clean parse lines (fun l hl => ⟨(hlines l hl).2.2, (hlines l hl).1⟩)]

/-- Witness for C9: two chunks whose boundary falls inside the second
line. -/
theorem ndjson_chunking_witness :
    foldNdjsonChunks (fun l => String.mk l) ["a\nb".toList, "c\n".toList] []
      = ([['a'], ['b', 'c']].map (fun l => String.mk l), []) :=
  ndjson_chunking String (fun l => String.mk l) [['a'], ['b', 'c']]
    ["a\nb".toList, "c\n".toList] (by decide) (by decide)

theorem schedStep_inv {σ β : Type} (steps : List σ) (run : σ → β) (bound : Nat)
    (st st2 : SchedState β) (e : SchedEvent)
    (hinv : SchedInv steps run st) (h : schedStep steps run bound st e = some st2) :
    SchedInv steps run st2 := by
  obtain ⟨h1, h2, h3, h4⟩ := hinv
  cases e with
  | start i =>
    simp only [schedStep] at h
    split at h
    · next hcond =>
      obtain ⟨hlt, hnr, hnl, hb⟩ := hcond
      cases h
      refine ⟨h1, h2, ?_, ?_⟩
      · exact List.nodup_cons.mpr ⟨hnr, h3⟩
      · intro j hj
        rcases List.mem_cons.mp hj with rfl | hj2
        · exact hnl
        · exact h4 j hj2
    · exact absurd h (by simp)
  | finish i =>
    simp only [schedStep] at h
    cases hs : steps[i]? with
    | none => rw [hs] at h; exact absurd h (by simp)
    | some s =>
      have h' : (if i ∈ st.running then
          some (⟨st.running.erase i, st.log ++ [(i, run s)]⟩ : SchedState β) else none)
          = some st2 := by
        rw [hs] at h
        exact h
      by_cases hir : i ∈ st.running
      · rw [if_pos hir] at h'
        cases Option.some.inj h'
        have hinotlog : i ∉ st.log.map Prod.fst := h4 i hir
        refine ⟨?_, ?_, ?_, ?_⟩
        · intro p hp
          rcases List.mem_append.mp hp with hp2 | hp2
          · exact h1 p hp2
          · rw [List.mem_singleton.mp hp2]
            exact ⟨s, hs, rfl⟩
        · rw [List.map_append, List.nodup_append]
          refine ⟨h2, by simp, ?_⟩
          intro a ha hb
          simp only [List.map_cons, List.map_nil, List.mem_singleton] at hb
          subst hb
          exact hinotlog ha
        · exact h3.erase i
        · intro j hj
          have hj2 : j ≠ i ∧ j ∈ st.running := (h3.mem_erase_iff).mp hj
          rw [List.map_append]
          intro hmem
          rcases List.mem_append.mp hmem with hm | hm
          · exact h4 j hj2.2 hm
          · simp only [List.map_cons, List.map_nil, List.mem_singleton] at hm
            exact hj2.1 hm
      · rw [if_neg hir] at h'
        exact absurd h' (by simp)

theorem runSched_inv {σ β : Type} (steps : List σ) (run : σ → β) (bound : Nat)
    (sched : List SchedEvent) (st st2 : SchedState β)
    (hinv : SchedInv steps run st)
    (h : runSched steps run bound sched st = some st2) :
    SchedInv steps run st2 := by
  induction sched generalizing st with
  | nil =>
    simp only [runSched] at h
    cases h
    exact hinv
  | cons e es ih =>
    simp only [runSched] at h
    cases hstep : schedStep steps run bound st e with
    | none => rw [hstep] at h; exact absurd h (by simp)
    | some stm =>
      rw [hstep] at h
      exact ih stm (schedStep_inv steps run bound st stm e hinv hstep) h

/-- C2 (confirmed): for every schedule of the bounded concurrent SQL
execution stage that runs to completion — any interleaving of starts
and finishes the bound admits, hence any assignment of completion times
— the stage's output is the same: one result per plan step, in exactly
the order the steps appear in the plan. -/
theorem sqlStage_plan_order {σ β : Type} (steps : List σ) (run : σ → β) (bound : Nat)
    (sched : List SchedEvent) (st : SchedState β)
    (h : runSched steps run bound sched ⟨[], []⟩ = some st)
    (hlen : st.log.length = steps.length) :
    reassemble steps.length st.log = steps.map (fun s => some (run s)) ∧
    sqlStageOutput steps run bound sched = some (steps.map (fun s => some (run s))) := by
  have hinv0 : SchedInv steps run (⟨[], []⟩ : SchedState β) := by
    refine ⟨?_, ?_, ?_, ?_⟩ <;> simp
  obtain ⟨h1, h2, h3, h4⟩ := runSched_inv steps run bound sched _ st hinv0 h
  have hkeylen : (st.log.map Prod.fst).length = steps.length := by
    rw [List.length_map]
    exact hlen
  have hkeylt : ∀ k ∈ st.log.map Prod.fst, k < steps.length := by
    intro k hk
    obtain ⟨p, hp, rfl⟩ := List.mem_map.mp hk
    obtain ⟨s, hs, _⟩ := h1 p hp
    by_contra hge
    rw [List.getElem?_eq_none (Nat.le_of_not_lt hge)] at hs
    cases hs
  have hmem : ∀ i, i < steps.length → i ∈ st.log.map Prod.fst := by
    intro i hi
    have hsub : (st.log.map Prod.fst).toFinset ⊆ Finset.range steps.length := by
      intro k hk
      rw [Finset.mem_range]
      exact hkeylt k (List.mem_toFinset.mp hk)
    have hcard : (Finset.range steps.length).card ≤ (st.log.map Prod.fst).toFinset.card := by
      rw [Finset.card_range, List.toFinset_card_of_nodup h2, hkeylen]
    have heq := Finset.eq_of_subset_of_card_le hsub hcard
    have : i ∈ (st.log.map Prod.fst).toFinset := by
      rw [heq]
      exact Finset.mem_range.mpr hi
    exact List.mem_toFinset.mp this
  have hfind : ∀ i (hi : i < steps.length),
      (st.log.find? (fun p => p.1 = i)).map Prod.snd = some (run (steps.get ⟨i, hi⟩)) := by
    intro i hi
    obtain ⟨p, hp, hpi⟩ := List.mem_map.mp (hmem i hi)
    have hsome : (st.log.find? (fun p => p.1 = i)).isSome := by
      rw [List.find?_isSome]
      exact ⟨p, hp, by simp [hpi]⟩
    obtain ⟨q, hq⟩ := Option.isSome_iff_exists.mp hsome
    have hq1 : q.1 = i := by
      have := List.find?_some hq
      simpa using this
    have hqmem : q ∈ st.log := List.mem_of_find?_eq_some hq
    obtain ⟨s, hs, hqs⟩ := h1 q hqmem
    rw [hq1] at hs
    rw [List.getElem?_eq_getElem hi] at hs
    rw [hq]
    simp [hqs, Option.some.inj hs]
  have hre : reassemble steps.length st.log = steps.map (fun s => some (run s)) := by
    apply List.ext_getElem
    · simp [reassemble]
    · intro i hi1 hi2
      have hi : i < steps.length := by
        simpa [reassemble] using hi1
      simp only [reassemble, List.getElem_map, List.getElem_range]
      rw [hfind i hi]
      simp
  refine ⟨hre, ?_⟩
  have hout : sqlStageOutput steps run bound sched = some (reassemble steps.length st.log) := by
    unfold sqlStageOutput
    rw [h]
    rfl
  rw [hout, hre]

/-- Witness for C2: two steps started in plan order whose remote calls
complete in reverse order still yield results in plan order. -/
theorem sqlStage_plan_order_witness :
    sqlStageOutput [10, 20] (fun s => s + 1) 3
        [.start 0, .start 1, .finish 1, .finish 0]
      = some ([10, 20].map (fun s => some (s + 1))) := by
  have h : runSched [10, 20] (fun s => s + 1) 3
      [.start 0, .start 1, .finish 1, .finish 0] ⟨[], []⟩
      = some ⟨[], [(1, 21), (0, 11)]⟩ := by rfl
  exact (sqlStage_plan_order [10, 20] (fun s => s + 1) 3
    [.start 0, .start 1, .finish 1, .finish 0] ⟨[], [(1, 21), (0, 11)]⟩ h rfl).2

end CiAnalyst
